import Mathlib

set_option linter.unusedVariables false

/-!
Shallow embedding of src/src/oseama.c (the Seama firmware container tool)
and proofs about it.

Streams are modelled as lists of byte values (`List Nat`); a read of `n`
bytes from a stream returns `min n remaining` bytes, mirroring fread on a
byte stream.  Seeking past end-of-file succeeds on regular files, so
oseama_skip is modelled as `List.drop` (its -EIO fallback return value is
ignored by every call site in the C, lines 136, 169, 556).  Error codes
are the negated errno values the C returns: -5 is -EIO, -22 is -EINVAL.
-/

/-- Sentinel value of every Seama header, oseama.c line 37. -/
def SEAMA_MAGIC : Nat := 0x5ea3a417

/-- Size in bytes of struct seama_seal_header (u32 + u16 + u16 + u32, packed),
oseama.c lines 39-44. -/
def sealHdrSize : Nat := 12

/-- Size in bytes of struct seama_entity_header (u32 + u16 + u16 + u32 + 16-byte
md5, packed), oseama.c lines 46-52. -/
def entityHdrSize : Nat := 28

/-- Decode a big-endian u16 stored at byte offset off of stream s
(be16_to_cpu applied to the two wire bytes, oseama.c lines 26-32). -/
def readBE16 (s : List Nat) (off : Nat) : Nat :=
  256 * s.getD off 0 + s.getD (off + 1) 0

/-- Decode a big-endian u32 stored at byte offset off of stream s
(be32_to_cpu applied to the four wire bytes, oseama.c lines 25-31). -/
def readBE32 (s : List Nat) (off : Nat) : Nat :=
  2 ^ 24 * s.getD off 0 + 2 ^ 16 * s.getD (off + 1) 0 +
    256 * s.getD (off + 2) 0 + s.getD (off + 3) 0

/-- Encode a u16 as its two big-endian wire bytes (cpu_to_be16 composed with
the implicit truncation of the assignment to a uint16_t field). -/
def beBytes16 (n : Nat) : List Nat := [n / 256 % 256, n % 256]

/-- Encode a u32 as its four big-endian wire bytes (cpu_to_be32 composed with
the implicit truncation of the assignment to a uint32_t field). -/
def beBytes32 (n : Nat) : List Nat :=
  [n / 2 ^ 24 % 256, n / 2 ^ 16 % 256, n / 256 % 256, n % 256]

/-!
Metadata table codec.  Encoding is what the -m handler of oseama_entity
writes: each string followed by one NUL byte (fwrite of strlen+1 bytes,
oseama.c line 375).  Decoding is the scan shared by oseama_info (lines
248-252) and oseama_info_entities (lines 163-167): force the last byte of
the buffer to NUL, then walk NUL-terminated runs while the cursor is
strictly before the last byte and the current run is non-empty.
-/

/-- Bytes of the NUL-terminated string starting at the head of the list:
the run of bytes up to (excluding) the first zero byte.  This is the string
strlen/printf see at a cursor position; total because the scan only calls it
on suffixes that contain a zero byte (the decoder forces one). -/
def cstr : List Nat → List Nat
  | [] => []
  | b :: rest => if b = 0 then [] else b :: cstr rest

/-- Scan loop of the metadata decoder, oseama.c lines 165-167 and 250-252.
rem is the suffix of the metadata buffer at the cursor tmp; the C guard
tmp < end (end pointing at the last byte) holds exactly when rem has at
least two elements. -/
def metaScan (rem : List Nat) : List (List Nat) :=
  if h : 2 ≤ rem.length ∧ cstr rem ≠ [] then
    cstr rem :: metaScan (rem.drop ((cstr rem).length + 1))
  else []
termination_by rem.length
decreasing_by
  simp only [List.length_drop]
  omega

/-- Metadata decoder: force the final byte of the region to NUL
(end = buf[metasize - 1]; *end = 0; oseama.c lines 163-164 and 248-249),
then run the scan from the start of the region. -/
def metaDecode (buf : List Nat) : List (List Nat) :=
  metaScan (buf.set (buf.length - 1) 0)

/-- Metadata encoder: each string followed by a single NUL byte, in order
(the bytes the -m handler writes, oseama.c line 375). -/
def metaEncode : List (List Nat) → List Nat
  | [] => []
  | s :: rest => s ++ 0 :: metaEncode rest

/-!
Digest computer of the entity builder, oseama.c lines 326-332: after seeking
to sizeof(hdr) + metasize, read chunks of min(128, length) bytes while fread
returns a positive count, feeding each chunk to MD5_Update and decrementing
length.  The functions below compute the exact byte sequence fed to MD5.
-/

/-- Chunked read loop of oseama_entity_write_hdr (lines 328-331): rem is the
remainder of the file at the current position, len the undigested byte count;
the result is the concatenation of all chunks fed to MD5_Update. -/
def md5FeedLoop (rem : List Nat) (len : Nat) : List Nat :=
  if h : (rem.take (min 128 len)).length = 0 then []
  else
    rem.take (min 128 len) ++
      md5FeedLoop (rem.drop ((rem.take (min 128 len)).length))
        (len - (rem.take (min 128 len)).length)
termination_by rem.length
decreasing_by
  have hle : (rem.take (min 128 len)).length ≤ rem.length := by
    simp [List.length_take]
  simp only [List.length_drop]
  omega

/-- Byte sequence the 128-bit digest of an entity is computed over: the
builder seeks to sizeof(hdr) + metasize = 28 + metasize (line 326) and runs
the chunk loop with length = imagesize. -/
def digestInput (file : List Nat) (metasize imagesize : Nat) : List Nat :=
  md5FeedLoop (file.drop (entityHdrSize + metasize)) imagesize

/-- Model of oseama_entity_write_hdr, oseama.c lines 319-346, parameterized
by the digest primitive md5 (an arbitrary function from the fed bytes to the
16 digest bytes) and by whether the final header fwrite succeeds.  Returns
the status and the 28 header bytes written back at offset 0.  Note the only
error path in the C is the final fwrite (lines 339-343); no check follows
the digest chunk loop. -/
def oseama_entity_write_hdr (md5 : List Nat → List Nat) (hdrWriteOk : Bool)
    (file : List Nat) (metasize imagesize : Nat) : Int × List Nat :=
  if hdrWriteOk then
    (0, beBytes32 SEAMA_MAGIC ++ beBytes16 0 ++ beBytes16 metasize ++
      beBytes32 imagesize ++ md5 (digestInput file metasize imagesize))
  else (-5, [])

/-- Alignment step of the entity builder, oseama_entity_align, oseama.c lines
309-317: when curr_offset has low bits under the alignment mask, append
alignment - (curr_offset % alignment) zero bytes, else nothing.  The result
is the list of zero bytes appended (oseama_entity_append_zeros writes a
zero-filled buffer of that length, lines 293-307). -/
def oseama_entity_align (curr_offset alignment : Nat) : List Nat :=
  if curr_offset &&& (alignment - 1) ≠ 0 then
    List.replicate (alignment - curr_offset % alignment) 0
  else []

/-- Model of the -b (pad to absolute offset) handler of oseama_entity,
oseama.c lines 412-425: sbytes = target - curr_offset computed in signed
arithmetic; when negative, a diagnostic is printed and nothing is written or
accumulated; otherwise sbytes zero bytes are appended and curr_offset and
imagesize grow by sbytes.  Returns (sbytes, new curr_offset, new imagesize,
bytes appended). -/
def entityPadToOffsetStep (target curr_offset imagesize : Nat) :
    Int × Nat × Nat × List Nat :=
  if (target : Int) - (curr_offset : Int) < 0 then
    ((target : Int) - (curr_offset : Int), curr_offset, imagesize, [])
  else
    ((target : Int) - (curr_offset : Int),
      curr_offset + (target - curr_offset),
      imagesize + (target - curr_offset),
      List.replicate (target - curr_offset) 0)

/-!
Entity iterator of the Info flow, oseama_info_entities, oseama.c lines
116-176.  The model takes the entity stream (the container bytes after the
seal header and its metadata), the optional target index eidx (negative
means visit all, matching the int global entity_idx), and the running
counter i.  It returns the status code and the list of metasize values of
every entity whose metadata block was materialized and decoded (lines
155-167); printing is I/O and is not modelled, nor is the pos bookkeeping
which only feeds printf.  A header fread returning anything other than the
full 28 bytes ends the loop with the current err, which is 0 (line 124).
-/

/-- Model of oseama_info_entities; see the section comment above. -/
def oseama_info_entities_run (s : List Nat) (eidx : Int) (i : Nat) :
    Int × List Nat :=
  if h28 : s.length < entityHdrSize then (0, [])
  else if readBE32 s 0 ≠ SEAMA_MAGIC then (-22, [])
  else if 0 ≤ eidx ∧ (i : Int) ≠ eidx then
    oseama_info_entities_run
      (s.drop (entityHdrSize + readBE16 s 6 + readBE32 s 8)) eidx (i + 1)
  else if 1024 ≤ readBE16 s 6 then (-22, [])
  else if (s.drop entityHdrSize).length < readBE16 s 6 then (-5, [])
  else
    match oseama_info_entities_run
        (s.drop (entityHdrSize + readBE16 s 6 + readBE32 s 8)) eidx (i + 1) with
    | (e, ms) => (e, readBE16 s 6 :: ms)
termination_by s.length
decreasing_by
  all_goals
    simp only [List.length_drop]
    simp only [entityHdrSize] at h28 ⊢
    omega

/-- Model of oseama_info, oseama.c lines 178-261, on an already opened
stream (argument parsing and open failures are out of scope, spec section 1).
Returns the status the C function returns, paired with some metasize when
control reaches the seal metadata decode of lines 242-252 (entity_idx < 0),
carrying the metasize value the decode runs with.  The return value of the
oseama_info_entities call at line 255 is discarded exactly as in the C:
err still holds 0 at that point and is what the function returns. -/
def oseama_info_run (s : List Nat) (eidx : Int) : Int × Option Nat :=
  if s.length < sealHdrSize then (-5, none)
  else if readBE32 s 0 ≠ SEAMA_MAGIC then (-22, none)
  else if 1024 ≤ readBE16 s 6 then (-22, none)
  else if readBE32 s 8 ≠ 0 then (-22, none)
  else if (s.drop sealHdrSize).length < readBE16 s 6 then (-5, none)
  else
    match oseama_info_entities_run (s.drop (sealHdrSize + readBE16 s 6)) eidx 0 with
    | (_e, _ms) => (0, if eidx < 0 then some (readBE16 s 6) else none)

/-!
Entity iterator of the Extract flow, oseama_extract_entity, oseama.c lines
457-505, and the Extract orchestration, oseama_extract, lines 507-567.
Writes to the destination are modelled as succeeding (their failure paths
are I/O-collaborator behavior); the model returns the status code and the
bytes written to the destination.
-/

/-- Model of oseama_extract_entity: iterate entity headers; a header fread
shorter than 28 bytes ends the loop with err 0 (line 464); bad magic ends it
with -EINVAL (lines 465-469); a non-matching index skips metasize+imagesize
bytes (lines 473-477); on a match the 28 header bytes are written, then the
copy loop forwards whatever bytes are available up to metasize+imagesize, and
err is -EIO when fewer were available (lines 479-499). -/
def oseama_extract_entity_run (s : List Nat) (eidx i : Nat) : Int × List Nat :=
  if h28 : s.length < entityHdrSize then (0, [])
  else if readBE32 s 0 ≠ SEAMA_MAGIC then (-22, [])
  else if i ≠ eidx then
    oseama_extract_entity_run
      (s.drop (entityHdrSize + readBE16 s 6 + readBE32 s 8)) eidx (i + 1)
  else if (s.drop entityHdrSize).length < readBE16 s 6 + readBE32 s 8 then
    (-5, s.take entityHdrSize ++
      (s.drop entityHdrSize).take (readBE16 s 6 + readBE32 s 8))
  else
    (0, s.take entityHdrSize ++
      (s.drop entityHdrSize).take (readBE16 s 6 + readBE32 s 8))
termination_by s.length
decreasing_by
  simp only [List.length_drop]
  simp only [entityHdrSize] at h28 ⊢
  omega

/-- Model of oseama_extract on an already opened stream with a nonnegative
requested index (the entity_idx < 0 case is rejected before any read, line
524).  After the 12 seal header bytes are read, the seal magic is never
checked (contrast oseama_info line 216); metasize is decoded (line 554), the
metadata skip return is ignored (line 556), the oseama_extract_entity return
is discarded (line 558), and the function returns err, still 0 (line 566),
together with the bytes written to the destination. -/
def oseama_extract_run (s : List Nat) (eidx : Nat) : Int × List Nat :=
  if s.length < sealHdrSize then (-5, [])
  else
    (0, (oseama_extract_entity_run ((s.drop sealHdrSize).drop (readBE16 s 6))
      eidx 0).2)

/-- Index at which the metadata decoder writes its forced NUL terminator,
relative to the start of the metadata buffer: end = &buf[metasize - 1]
(oseama.c lines 163 and 248), with the size_t subtraction read as integer
arithmetic (for metasize = 0 the C index wraps around to address the byte
just before buf). -/
def metaNulWriteIndex (metasize : Nat) : Int := (metasize : Int) - 1

/-!
Helper lemmas.
-/

/-- The digest chunk loop feeds exactly the first len available bytes of the
remainder to MD5 (and all of them when len of them are available). -/
lemma md5FeedLoop_eq_take : ∀ (n : Nat) (rem : List Nat), rem.length ≤ n →
    ∀ len, md5FeedLoop rem len = rem.take len := by
  intro n
  induction n with
  | zero =>
    intro rem hlen len
    have h0 : rem = [] := List.length_eq_zero.mp (Nat.le_zero.mp hlen)
    subst h0
    rw [md5FeedLoop]
    simp
  | succ n ih =>
    intro rem hlen len
    rw [md5FeedLoop]
    by_cases h : (rem.take (min 128 len)).length = 0
    · rw [dif_pos h]
      rw [List.length_take] at h
      have hz : len = 0 ∨ rem.length = 0 := by omega
      rcases hz with h' | h'
      · subst h'; simp
      · have h0 : rem = [] := List.length_eq_zero.mp h'
        subst h0; simp
    · rw [dif_neg h]
      generalize hc : (rem.take (min 128 len)).length = c
      rw [hc] at h
      have hcmin : c = min (min 128 len) rem.length := by
        rw [← hc]; simp [List.length_take]
      have hcle : c ≤ rem.length := by omega
      have hclen : c ≤ len := by omega
      have hpos : 0 < c := Nat.pos_of_ne_zero h
      rw [ih (rem.drop c) (by simp only [List.length_drop]; omega) (len - c)]
      have h1 : rem.take (min 128 len) = rem.take c := by
        rw [List.take_eq_take]
        omega
      rw [h1, ← List.take_add]
      congr 1
      omega

/-- The bytes fed to MD5 by the builder are the first imagesize bytes of the
file after the 28-byte header and the metadata block, clamped to what the
file actually holds. -/
lemma digestInput_eq_take (file : List Nat) (m i : Nat) :
    digestInput file m i = (file.drop (entityHdrSize + m)).take i :=
  md5FeedLoop_eq_take _ _ (Nat.le_refl _) i

/-- A NUL-free string followed by a NUL terminator and anything else scans
back to exactly that string. -/
lemma cstr_append_nul (s t : List Nat) (h : ∀ b ∈ s, b ≠ 0) :
    cstr (s ++ 0 :: t) = s := by
  induction s with
  | nil => simp [cstr]
  | cons a s ih =>
    have ha : a ≠ 0 := h a (List.mem_cons_self a s)
    simp only [List.cons_append, cstr, if_neg ha, List.append_eq]
    rw [ih (fun b hb => h b (List.mem_cons_of_mem a hb))]

/-- The scan loop inverts the encoder on sequences of non-empty NUL-free
strings. -/
lemma metaScan_encode (strings : List (List Nat))
    (h : ∀ s ∈ strings, s ≠ [] ∧ ∀ b ∈ s, b ≠ 0) :
    metaScan (metaEncode strings) = strings := by
  induction strings with
  | nil =>
    rw [metaEncode, metaScan]
    simp
  | cons s rest ih =>
    have hs := h s (List.mem_cons_self s rest)
    have hcs : cstr (s ++ 0 :: metaEncode rest) = s :=
      cstr_append_nul s _ hs.2
    have hlen : 1 ≤ s.length := List.length_pos.mpr hs.1
    rw [metaEncode, metaScan, dif_pos]
    · rw [hcs]
      have hdrop : (s ++ 0 :: metaEncode rest).drop (s.length + 1) = metaEncode rest := by
        have he : s ++ 0 :: metaEncode rest = (s ++ [0]) ++ metaEncode rest := by
          simp
        rw [he, List.drop_left' (by simp)]
      rw [hdrop, ih (fun x hx => h x (List.mem_cons_of_mem s hx))]
    · constructor
      · simp only [List.length_append, List.length_cons]
        omega
      · rw [hcs]; exact hs.1

/-- An encoded non-empty sequence of strings ends in a NUL byte. -/
lemma metaEncode_concat_nul : ∀ (strings : List (List Nat)), strings ≠ [] →
    ∃ l, metaEncode strings = l ++ [0] := by
  intro strings
  induction strings with
  | nil => intro h; exact absurd rfl h
  | cons s rest ih =>
    intro _
    cases hr : rest with
    | nil =>
      subst hr
      exact ⟨s, by rw [metaEncode, metaEncode]⟩
    | cons r rs =>
      rcases ih (by simp [hr]) with ⟨l, hl⟩
      rw [hr] at hl
      refine ⟨s ++ 0 :: l, ?_⟩
      rw [metaEncode, hl]
      simp

/-- Forcing the last byte of a region that already ends in NUL to NUL leaves
the region unchanged. -/
lemma set_concat_nul : ∀ (l : List Nat),
    (l ++ [0]).set ((l ++ [0]).length - 1) 0 = l ++ [0] := by
  intro l
  induction l with
  | nil => rfl
  | cons a l ih =>
    have h1 : ((a :: l) ++ [0]).length - 1 = l.length + 1 := by simp
    rw [h1, List.cons_append, List.set_cons_succ]
    have h2 : (l ++ [0]).length - 1 = l.length := by simp
    rw [h2] at ih
    rw [ih]

/-- Entity iteration on fewer bytes than a full 28-byte header ends with
status 0 and no decoded metadata: a short header read terminates the loop
of oseama_info_entities normally (line 124). -/
lemma infoEntities_short (s : List Nat) (eidx : Int) (i : Nat)
    (h : s.length < entityHdrSize) :
    oseama_info_entities_run s eidx i = (0, []) := by
  rw [oseama_info_entities_run, dif_pos h]

/-- Entity iteration on a full header whose magic is not the sentinel stops
with -EINVAL (oseama_info_entities lines 127-131). -/
lemma infoEntities_badMagic (s : List Nat) (eidx : Int) (i : Nat)
    (h28 : entityHdrSize ≤ s.length) (hm : readBE32 s 0 ≠ SEAMA_MAGIC) :
    oseama_info_entities_run s eidx i = (-22, []) := by
  rw [oseama_info_entities_run, dif_neg (Nat.not_lt.mpr h28), if_pos hm]

/-- Extract iteration on fewer bytes than a full header ends with status 0
and writes nothing (oseama_extract_entity line 464 loop exit). -/
lemma extractEntity_short (s : List Nat) (eidx i : Nat)
    (h : s.length < entityHdrSize) :
    oseama_extract_entity_run s eidx i = (0, []) := by
  rw [oseama_extract_entity_run, dif_pos h]

/-- Extract iteration on a full header with bad magic stops with -EINVAL
and writes nothing (oseama_extract_entity lines 465-469). -/
lemma extractEntity_badMagic (s : List Nat) (eidx i : Nat)
    (h28 : entityHdrSize ≤ s.length) (hm : readBE32 s 0 ≠ SEAMA_MAGIC) :
    oseama_extract_entity_run s eidx i = (-22, []) := by
  rw [oseama_extract_entity_run, dif_neg (Nat.not_lt.mpr h28), if_pos hm]

/-- Inspect on a full seal header whose magic is not the sentinel fails with
-EINVAL before going any further (oseama_info lines 216-220). -/
lemma info_run_badMagic (s : List Nat) (eidx : Int)
    (h12 : sealHdrSize ≤ s.length) (hm : readBE32 s 0 ≠ SEAMA_MAGIC) :
    oseama_info_run s eidx = (-22, none) := by
  rw [oseama_info_run, if_neg (Nat.not_lt.mpr h12), if_pos hm]

/-!
Claim theorems.
-/

/-- C1 (code_bug evidence).  The claim says an invocation in which any error
was detected is never reported as success.  The code detects errors inside
its workers but the callers discard the returned codes: on a stream made of
a valid seal header (magic 0x5ea3a417, metasize 1, imagesize 0), one
metadata byte, and a 28-byte entity header with magic 0, the entity
iterator reports -EINVAL (bad entity magic) yet oseama_info returns 0
(line 255 discards the code); likewise oseama_extract returns 0 although
oseama_extract_entity reports -EINVAL on the same bad entity (line 558
discards the code). -/
theorem C1_detected_error_reported_as_success :
    (oseama_info_run ([0x5e, 0xa3, 0xa4, 0x17, 0, 0, 0, 1, 0, 0, 0, 0] ++ [0] ++
      List.replicate 28 0) (-1)).1 = 0 ∧
    (oseama_info_entities_run (([0x5e, 0xa3, 0xa4, 0x17, 0, 0, 0, 1, 0, 0, 0, 0] ++ [0] ++
      List.replicate 28 0).drop 13) (-1) 0).1 = -22 ∧
    (oseama_extract_run ([0x5e, 0xa3, 0xa4, 0x17, 0, 0, 0, 0, 0, 0, 0, 0] ++
      List.replicate 28 0) 0).1 = 0 ∧
    (oseama_extract_entity_run (([0x5e, 0xa3, 0xa4, 0x17, 0, 0, 0, 0, 0, 0, 0, 0] ++
      List.replicate 28 0).drop 12) 0 0).1 = -22 := by
  refine ⟨?_, ?_, ?_, ?_⟩ <;>
    simp [oseama_info_run, oseama_info_entities_run, oseama_extract_run,
      oseama_extract_entity_run, sealHdrSize, entityHdrSize, readBE16, readBE32, SEAMA_MAGIC]

/-- C2 (counterexample).  The claim says Extract fails with EntityNotFound
when the iterator reaches end-of-stream before the target index.  On a
container holding only a valid seal header and zero entities, a request for
entity 0 completes with status 0 and writes nothing: no failure of any kind
is reported. -/
theorem C2_counterexample :
    oseama_extract_run [0x5e, 0xa3, 0xa4, 0x17, 0, 0, 0, 0, 0, 0, 0, 0] 0 = (0, []) := by
  simp [oseama_extract_run, oseama_extract_entity_run, sealHdrSize, entityHdrSize,
    readBE16, readBE32]

/-- C2 (amended).  When the entity stream is exhausted (fewer bytes than a
full 28-byte entity header remain) before the target index is reached, the
extract iteration terminates with status 0 and writes nothing to the
destination; no EntityNotFound error exists in the code. -/
theorem C2_amended (s : List Nat) (eidx i : Nat) (h : s.length < entityHdrSize) :
    oseama_extract_entity_run s eidx i = (0, []) :=
  extractEntity_short s eidx i h

/-- C2 (witness for the amended theorem). -/
theorem C2_witness : oseama_extract_entity_run [1, 2, 3] 5 0 = (0, []) :=
  C2_amended [1, 2, 3] 5 0 (by decide)

/-- C3 (counterexample).  The claim says every header read by any operation
aborts processing with an error when its magic is not 0x5ea3a417; but the
seal header read by Extract is never magic-checked: on a container whose
seal header is twelve zero bytes (magic 0) followed by a valid entity,
Extract completes with status 0 and copies the entity out. -/
theorem C3_counterexample :
    readBE32 (List.replicate 12 0 ++ ([0x5e, 0xa3, 0xa4, 0x17] ++ List.replicate 24 0)) 0
      ≠ SEAMA_MAGIC ∧
    oseama_extract_run (List.replicate 12 0 ++ ([0x5e, 0xa3, 0xa4, 0x17] ++ List.replicate 24 0)) 0
      = (0, [0x5e, 0xa3, 0xa4, 0x17] ++ List.replicate 24 0) := by
  constructor
  · decide
  · simp [oseama_extract_run, oseama_extract_entity_run, sealHdrSize, entityHdrSize,
      readBE16, readBE32, SEAMA_MAGIC]

/-- C3 (amended).  A bad magic aborts with an error for the seal header read
by Inspect and for every entity header read by the Info or Extract
iterators; the seal header read by Extract is the exception and is not
checked (see the counterexample). -/
theorem C3_amended (s : List Nat) (eidx : Int) (idx j : Nat)
    (hm : readBE32 s 0 ≠ SEAMA_MAGIC) :
    (sealHdrSize ≤ s.length → (oseama_info_run s eidx).1 = -22) ∧
    (entityHdrSize ≤ s.length → (oseama_info_entities_run s eidx j).1 = -22) ∧
    (entityHdrSize ≤ s.length → (oseama_extract_entity_run s idx j).1 = -22) :=
  ⟨fun h12 => by rw [info_run_badMagic s eidx h12 hm],
   fun h28 => by rw [infoEntities_badMagic s eidx j h28 hm],
   fun h28 => by rw [extractEntity_badMagic s idx j h28 hm]⟩

/-- C3 (witness for the amended theorem). -/
theorem C3_witness :
    (oseama_info_run (List.replicate 28 0) (-1)).1 = -22 ∧
    (oseama_info_entities_run (List.replicate 28 0) (-1) 0).1 = -22 ∧
    (oseama_extract_entity_run (List.replicate 28 0) 0 0).1 = -22 :=
  ⟨(C3_amended (List.replicate 28 0) (-1) 0 0 (by decide)).1 (by decide),
   (C3_amended (List.replicate 28 0) (-1) 0 0 (by decide)).2.1 (by decide),
   (C3_amended (List.replicate 28 0) (-1) 0 0 (by decide)).2.2 (by decide)⟩

/-- C4.  For an entity file of total size header width (28) + metasize +
imagesize, the byte sequence the back-patched digest is computed over is
exactly the imagesize bytes at offset 28 + metasize: the whole suffix after
the metadata block, hence no metadata byte. -/
theorem C4_digest_covers_exactly_payload (file : List Nat) (m i : Nat)
    (h : file.length = entityHdrSize + m + i) :
    digestInput file m i = file.drop (entityHdrSize + m) ∧
    (file.drop (entityHdrSize + m)).length = i := by
  have hlen : (file.drop (entityHdrSize + m)).length = i := by
    simp only [List.length_drop]
    omega
  constructor
  · rw [digestInput_eq_take, ← hlen, List.take_length]
  · exact hlen

/-- C4 (witness). -/
theorem C4_witness :
    (List.replicate 30 1).length = entityHdrSize + 1 + 1 ∧
    (digestInput (List.replicate 30 1) 1 1 = (List.replicate 30 1).drop (entityHdrSize + 1) ∧
     ((List.replicate 30 1).drop (entityHdrSize + 1)).length = 1) :=
  ⟨by decide, C4_digest_covers_exactly_payload (List.replicate 30 1) 1 1 (by decide)⟩

/-- C5 (counterexample).  The claim says a short read before length is
exhausted is a fatal TruncatedStream for the builder.  On a 28-byte file
(nothing after the header) with metasize 0 and imagesize 5, the digest loop
reads 0 of the 5 requested bytes, no error is raised, and the header write
still completes with status 0: the container is sealed with a digest over
fewer bytes. -/
theorem C5_counterexample :
    (List.replicate 28 0).length < entityHdrSize + 0 + 5 ∧
    digestInput (List.replicate 28 0) 0 5 = [] ∧
    (oseama_entity_write_hdr (fun _ => List.replicate 16 0) true
      (List.replicate 28 0) 0 5).1 = 0 := by
  refine ⟨by decide, ?_, rfl⟩
  simp [digestInput, md5FeedLoop, entityHdrSize]

/-- C5 (amended).  The digest loop consumes min(length, available) bytes:
the bytes fed to the digest are the first imagesize bytes available after
the metadata block, clamped to the file's actual size, and
oseama_entity_write_hdr reports success whenever the final header write
succeeds, with no check that length was exhausted. -/
theorem C5_amended (md5fn : List Nat → List Nat) (file : List Nat) (m i : Nat) :
    digestInput file m i = (file.drop (entityHdrSize + m)).take i ∧
    (oseama_entity_write_hdr md5fn true file m i).1 = 0 :=
  ⟨digestInput_eq_take file m i, rfl⟩

/-- C6.  Decoding the metadata block produced by encoding a sequence of
non-empty NUL-free strings (each string followed by a single NUL) yields
exactly the original strings in the original order. -/
theorem C6_meta_roundtrip (strings : List (List Nat))
    (h : ∀ s ∈ strings, s ≠ [] ∧ ∀ b ∈ s, b ≠ 0) :
    metaDecode (metaEncode strings) = strings := by
  unfold metaDecode
  cases hs : strings with
  | nil =>
    rw [metaEncode]
    simp only [List.set]
    rw [metaScan]
    simp
  | cons s rest =>
    rcases metaEncode_concat_nul (s :: rest) (by simp) with ⟨l, hl⟩
    rw [hl, set_concat_nul, ← hl]
    rw [← hs] at *
    exact metaScan_encode strings h

/-- C6 (witness). -/
theorem C6_witness :
    (∀ s ∈ [[97, 98], [99]], s ≠ [] ∧ ∀ b ∈ s, b ≠ 0) ∧
    metaDecode (metaEncode [[97, 98], [99]]) = [[97, 98], [99]] :=
  ⟨by decide, C6_meta_roundtrip [[97, 98], [99]] (by decide)⟩

/-- C7 (counterexample).  The claim says a header read of more than zero but
fewer than the full header width terminates iteration with an error.  On a
10-byte entity stream (a partial header) the iterator terminates with
status 0, exactly as for a zero-byte read: the loop guard of line 124
treats every short fread count alike. -/
theorem C7_counterexample :
    (List.replicate 10 7).length ≠ 0 ∧
    (List.replicate 10 7).length < entityHdrSize ∧
    oseama_info_entities_run (List.replicate 10 7) (-1) 0 = (0, []) := by
  refine ⟨by decide, by decide, ?_⟩
  simp [oseama_info_entities_run, entityHdrSize]

/-- C7 (amended).  A header read shorter than the fixed header width,
whether zero bytes or partial, terminates iteration normally with status 0;
only a complete header whose magic is not the sentinel terminates iteration
with an error. -/
theorem C7_amended (s : List Nat) (eidx : Int) (i : Nat) :
    (s.length < entityHdrSize → oseama_info_entities_run s eidx i = (0, [])) ∧
    (entityHdrSize ≤ s.length → readBE32 s 0 ≠ SEAMA_MAGIC →
      (oseama_info_entities_run s eidx i).1 = -22) :=
  ⟨fun h => infoEntities_short s eidx i h,
   fun h28 hm => by rw [infoEntities_badMagic s eidx i h28 hm]⟩

/-- C7 (witness for the amended theorem). -/
theorem C7_witness :
    oseama_info_entities_run [] (-1) 0 = (0, []) ∧
    (oseama_info_entities_run (List.replicate 28 0) (-1) 0).1 = -22 :=
  ⟨(C7_amended [] (-1) 0).1 (by decide),
   (C7_amended (List.replicate 28 0) (-1) 0).2 (by decide) (by decide)⟩

/-- C8.  A PadToOffset whose absolute target is behind the current running
offset takes the error branch (negative sbytes, the InvalidOffset
diagnostic of line 415), writes no bytes to the destination, and leaves the
running offset and accumulated imagesize unchanged. -/
theorem C8_pad_backward_writes_nothing (target curr im : Nat) (h : target < curr) :
    entityPadToOffsetStep target curr im =
      ((target : Int) - (curr : Int), curr, im, []) ∧
    (target : Int) - (curr : Int) < 0 := by
  have hneg : (target : Int) - (curr : Int) < 0 := by omega
  exact ⟨by rw [entityPadToOffsetStep, if_pos hneg], hneg⟩

/-- C8 (witness). -/
theorem C8_witness :
    entityPadToOffsetStep 0 1 0 = (((0 : Nat) : Int) - ((1 : Nat) : Int), 1, 0, []) ∧
    ((0 : Nat) : Int) - ((1 : Nat) : Int) < 0 :=
  C8_pad_backward_writes_nothing 0 1 0 (by decide)

/-- C9.  The alignment step of Build (called with alignment 4, line 383)
appends exactly (4 - offset mod 4) mod 4 zero bytes, padding only when the
offset is not already a multiple of 4; in particular an already aligned
offset gets zero bytes of padding. -/
theorem C9_align_formula (off : Nat) :
    oseama_entity_align off 4 = List.replicate ((4 - off % 4) % 4) 0 ∧
    (off % 4 = 0 → oseama_entity_align off 4 = []) := by
  have hmask : off &&& (4 - 1) = off % 4 := by
    have h := Nat.and_pow_two_sub_one_eq_mod off 2
    norm_num at h ⊢
    exact h
  have key : oseama_entity_align off 4 = List.replicate ((4 - off % 4) % 4) 0 := by
    rw [oseama_entity_align, hmask]
    by_cases h : off % 4 = 0
    · rw [if_neg (by simp [h]), h]
      simp
    · rw [if_pos h]
      congr 1
      have hlt : off % 4 < 4 := Nat.mod_lt _ (by norm_num)
      omega
  exact ⟨key, fun h0 => by rw [key, h0]; simp⟩

/-- C9 (witness). -/
theorem C9_witness :
    oseama_entity_align 8 4 = List.replicate ((4 - 8 % 4) % 4) 0 ∧
    oseama_entity_align 8 4 = [] :=
  ⟨(C9_align_formula 8).1, (C9_align_formula 8).2 (by decide)⟩

/-- C10.  A 12-byte seal header with the correct magic, metasize 0 and
imagesize 0 passes every validation check of Inspect and reaches the
metadata decode (returned metasize 0), and a 28-byte entity header with
correct magic and metasize 0 likewise reaches the entity metadata decode;
in both cases the decoder's forced NUL write goes to index metasize - 1 =
-1, one byte before the start of the metadata buffer, so the validation
checks do not make that out-of-bounds branch unreachable. -/
theorem C10_zero_meta_oob :
    oseama_info_run [0x5e, 0xa3, 0xa4, 0x17, 0, 0, 0, 0, 0, 0, 0, 0] (-1) = (0, some 0) ∧
    oseama_info_entities_run ([0x5e, 0xa3, 0xa4, 0x17] ++ List.replicate 24 0) (-1) 0 = (0, [0]) ∧
    metaNulWriteIndex 0 = -1 ∧ metaNulWriteIndex 0 < 0 := by
  refine ⟨?_, ?_, by decide, by decide⟩
  · simp [oseama_info_run, oseama_info_entities_run, sealHdrSize, entityHdrSize,
      readBE16, readBE32, SEAMA_MAGIC]
  · simp [oseama_info_entities_run, entityHdrSize, readBE16, readBE32, SEAMA_MAGIC]
